import Mathlib

/-!
Verification of the guard/ownership layer of a GPU-profiler scope library
(src/scope.rs).  The three guard variants (`Scope`, `OwningScope`,
`ManualOwningScope`) are embedded as Lean structures; the external profiler
backend and the command-recording objects are visible only through the
events they receive, collected in a trace.  Mutable references of the
source become explicit state passing: an operation on a trace returns the
new trace.
-/

namespace WgpuProfiler

/-- Backend call event observed at the boundary between the guard layer and
the external profiler / recorder objects.  Profilers, recorders and devices
are identified by numeric ids. -/
inductive Event where
  | beginScope (profiler : Nat) (label : String) (recorder : Nat) (device : Nat)
  | endScope (profiler : Nat) (recorder : Nat)
  | beginRenderPass (encoder : Nat) (pass : Nat)
  | beginComputePass (encoder : Nat) (pass : Nat)
  | releaseRecorder (recorder : Nat)
deriving DecidableEq, Repr

/-- A trace is the ordered list of backend calls issued so far. -/
abbrev Trace := List Event

/-- External profiler handle (`&mut GpuProfiler` in the source), identified
by a numeric id; guards reference it, they never own it. -/
structure GpuProfiler where
  id : Nat
deriving DecidableEq, Repr

/-- Recorder capability: every encoder / pass exposes a numeric identity
that the backend events mention (the `ProfilerCommandRecorder` trait bound
of the source, reduced to what the trace needs). -/
class ProfilerCommandRecorder (W : Type) where
  rid : W → Nat

export ProfilerCommandRecorder (rid)

/-- Modelled from the spec: the external profiler primitive
`begin_scope(label, recorder, device)` (the `GpuProfiler` implementation is
outside src/); the embedding records the call as one event appended to the
trace. -/
def GpuProfiler.begin_scope {W : Type} [ProfilerCommandRecorder W]
    (p : GpuProfiler) (label : String) (recorder : W) (device : Nat)
    (tr : Trace) : Trace :=
  tr ++ [Event.beginScope p.id label (rid recorder) device]

/-- Modelled from the spec: the external profiler primitive
`end_scope(recorder)` (the `GpuProfiler` implementation is outside src/),
recorded as one event appended to the trace. -/
def GpuProfiler.end_scope {W : Type} [ProfilerCommandRecorder W]
    (p : GpuProfiler) (recorder : W) (tr : Trace) : Trace :=
  tr ++ [Event.endScope p.id (rid recorder)]

/-- `Scope` (src/scope.rs, lines 5-8): borrows the profiler and the
recorder; calls `end_scope` on drop. -/
structure Scope (W : Type) where
  profiler : GpuProfiler
  recorder : W

/-- `OwningScope` (src/scope.rs, lines 12-15): borrows the profiler, owns
the recorder; calls `end_scope` on drop. -/
structure OwningScope (W : Type) where
  profiler : GpuProfiler
  recorder : W

/-- `ManualOwningScope` (src/scope.rs, lines 20-23): borrows the profiler,
owns the recorder; does NOT call `end_scope` on drop. -/
structure ManualOwningScope (W : Type) where
  profiler : GpuProfiler
  recorder : W

/-- `Scope::start` (src/scope.rs, lines 27-30): begins a scope, returns the
guard holding the same profiler and recorder. -/
def Scope.start {W : Type} [ProfilerCommandRecorder W]
    (profiler : GpuProfiler) (recorder : W) (device : Nat) (label : String)
    (tr : Trace) : Scope W × Trace :=
  (⟨profiler, recorder⟩, profiler.begin_scope label recorder device tr)

/-- `Scope::scope` (src/scope.rs, lines 33-35): nested scope reusing the
same profiler and recorder. -/
def Scope.scope {W : Type} [ProfilerCommandRecorder W]
    (s : Scope W) (device : Nat) (label : String) (tr : Trace) :
    Scope W × Trace :=
  Scope.start s.profiler s.recorder device label tr

/-- `impl Drop for Scope` (src/scope.rs, lines 157-161): the drop handler
calls `end_scope` on the guard's profiler with the guard's recorder. -/
def Scope.drop {W : Type} [ProfilerCommandRecorder W]
    (s : Scope W) (tr : Trace) : Trace :=
  s.profiler.end_scope s.recorder tr

/-- `OwningScope::start` (src/scope.rs, lines 40-43). -/
def OwningScope.start {W : Type} [ProfilerCommandRecorder W]
    (profiler : GpuProfiler) (recorder : W) (device : Nat) (label : String)
    (tr : Trace) : OwningScope W × Trace :=
  (⟨profiler, recorder⟩, profiler.begin_scope label recorder device tr)

/-- `OwningScope::scope` (src/scope.rs, lines 46-48): the nested guard is a
borrowing `Scope` over the owned recorder. -/
def OwningScope.scope {W : Type} [ProfilerCommandRecorder W]
    (s : OwningScope W) (device : Nat) (label : String) (tr : Trace) :
    Scope W × Trace :=
  Scope.start s.profiler s.recorder device label tr

/-- `impl Drop for OwningScope` (src/scope.rs, lines 178-182): the drop
handler calls `end_scope`; afterwards Rust drop glue drops the owned
`recorder` field, which releases / finalises the recorder (modelled by the
`releaseRecorder` event). -/
def OwningScope.drop {W : Type} [ProfilerCommandRecorder W]
    (s : OwningScope W) (tr : Trace) : Trace :=
  (s.profiler.end_scope s.recorder tr) ++ [Event.releaseRecorder (rid s.recorder)]

/-- `ManualOwningScope::start` (src/scope.rs, lines 53-56). -/
def ManualOwningScope.start {W : Type} [ProfilerCommandRecorder W]
    (profiler : GpuProfiler) (recorder : W) (device : Nat) (label : String)
    (tr : Trace) : ManualOwningScope W × Trace :=
  (⟨profiler, recorder⟩, profiler.begin_scope label recorder device tr)

/-- `ManualOwningScope::scope` (src/scope.rs, lines 59-61): the nested
guard is a borrowing `Scope` over the owned recorder. -/
def ManualOwningScope.scope {W : Type} [ProfilerCommandRecorder W]
    (s : ManualOwningScope W) (device : Nat) (label : String) (tr : Trace) :
    Scope W × Trace :=
  Scope.start s.profiler s.recorder device label tr

/-- `ManualOwningScope::end_scope` (src/scope.rs, lines 65-68): ends the
scope against the owned recorder, then returns the recorder together with
the profiler reference.  The source signature takes `mut self` by value, so
the guard is consumed by the call. -/
def ManualOwningScope.end_scope {W : Type} [ProfilerCommandRecorder W]
    (s : ManualOwningScope W) (tr : Trace) : (W × GpuProfiler) × Trace :=
  ((s.recorder, s.profiler), s.profiler.end_scope s.recorder tr)

/-- Destruction of a `ManualOwningScope` without `end_scope`: the source has
no `Drop` impl for it (src/scope.rs, lines 184-197 give only Deref), so only
Rust drop glue runs, dropping the owned `recorder` field; no profiler call
is made. -/
def ManualOwningScope.drop {W : Type} [ProfilerCommandRecorder W]
    (s : ManualOwningScope W) (tr : Trace) : Trace :=
  tr ++ [Event.releaseRecorder (rid s.recorder)]

/-- `wgpu::CommandEncoder`, reduced to its identity. -/
structure CommandEncoder where
  id : Nat
deriving DecidableEq, Repr

/-- `wgpu::RenderPass`, reduced to its identity. -/
structure RenderPass where
  id : Nat
deriving DecidableEq, Repr

/-- `wgpu::ComputePass`, reduced to its identity. -/
structure ComputePass where
  id : Nat
deriving DecidableEq, Repr

/-- `wgpu::RenderPassDescriptor`, reduced to the identity of the pass it
describes. -/
structure RenderPassDescriptor where
  passId : Nat
deriving DecidableEq, Repr

/-- `wgpu::ComputePassDescriptor`, reduced to the identity of the pass it
describes. -/
structure ComputePassDescriptor where
  passId : Nat
deriving DecidableEq, Repr

instance : ProfilerCommandRecorder CommandEncoder :=
  ⟨CommandEncoder.id⟩

instance : ProfilerCommandRecorder RenderPass :=
  ⟨RenderPass.id⟩

instance : ProfilerCommandRecorder ComputePass :=
  ⟨ComputePass.id⟩

/-- Modelled from the spec: recorder capability `begin_render_pass`
(external wgpu primitive), recorded as an event; the created pass is the one
the descriptor describes. -/
def CommandEncoder.begin_render_pass (e : CommandEncoder)
    (pass_descriptor : RenderPassDescriptor) (tr : Trace) :
    RenderPass × Trace :=
  (⟨pass_descriptor.passId⟩, tr ++ [Event.beginRenderPass e.id pass_descriptor.passId])

/-- Modelled from the spec: recorder capability `begin_compute_pass`
(external wgpu primitive), recorded as an event. -/
def CommandEncoder.begin_compute_pass (e : CommandEncoder)
    (pass_descriptor : ComputePassDescriptor) (tr : Trace) :
    ComputePass × Trace :=
  (⟨pass_descriptor.passId⟩, tr ++ [Event.beginComputePass e.id pass_descriptor.passId])

/-- `Scope<CommandEncoder>::scoped_render_pass` (src/scope.rs, lines 72-80):
begins a render pass on the wrapped encoder, then wraps it in an
`OwningScope` with the same profiler and the given label. -/
def Scope.scoped_render_pass (s : Scope CommandEncoder) (device : Nat)
    (label : String) (pass_descriptor : RenderPassDescriptor) (tr : Trace) :
    OwningScope RenderPass × Trace :=
  let rp := s.recorder.begin_render_pass pass_descriptor tr
  OwningScope.start s.profiler rp.1 device label rp.2

/-- `Scope<CommandEncoder>::scoped_compute_pass` (src/scope.rs, lines
83-91). -/
def Scope.scoped_compute_pass (s : Scope CommandEncoder) (device : Nat)
    (label : String) (pass_descriptor : ComputePassDescriptor) (tr : Trace) :
    OwningScope ComputePass × Trace :=
  let cp := s.recorder.begin_compute_pass pass_descriptor tr
  OwningScope.start s.profiler cp.1 device label cp.2

/-- `OwningScope<CommandEncoder>::scoped_render_pass` (src/scope.rs, lines
96-104). -/
def OwningScope.scoped_render_pass (s : OwningScope CommandEncoder)
    (device : Nat) (label : String) (pass_descriptor : RenderPassDescriptor)
    (tr : Trace) : OwningScope RenderPass × Trace :=
  let rp := s.recorder.begin_render_pass pass_descriptor tr
  OwningScope.start s.profiler rp.1 device label rp.2

/-- `OwningScope<CommandEncoder>::scoped_compute_pass` (src/scope.rs, lines
107-115). -/
def OwningScope.scoped_compute_pass (s : OwningScope CommandEncoder)
    (device : Nat) (label : String) (pass_descriptor : ComputePassDescriptor)
    (tr : Trace) : OwningScope ComputePass × Trace :=
  let cp := s.recorder.begin_compute_pass pass_descriptor tr
  OwningScope.start s.profiler cp.1 device label cp.2

/-- `ManualOwningScope<CommandEncoder>::scoped_render_pass` (src/scope.rs,
lines 120-128). -/
def ManualOwningScope.scoped_render_pass (s : ManualOwningScope CommandEncoder)
    (device : Nat) (label : String) (pass_descriptor : RenderPassDescriptor)
    (tr : Trace) : OwningScope RenderPass × Trace :=
  let rp := s.recorder.begin_render_pass pass_descriptor tr
  OwningScope.start s.profiler rp.1 device label rp.2

/-- `ManualOwningScope<CommandEncoder>::scoped_compute_pass` (src/scope.rs,
lines 131-139). -/
def ManualOwningScope.scoped_compute_pass (s : ManualOwningScope CommandEncoder)
    (device : Nat) (label : String) (pass_descriptor : ComputePassDescriptor)
    (tr : Trace) : OwningScope ComputePass × Trace :=
  let cp := s.recorder.begin_compute_pass pass_descriptor tr
  OwningScope.start s.profiler cp.1 device label cp.2

/-- `impl Deref for Scope` (src/scope.rs, lines 143-149): yields the wrapped
recorder. -/
def Scope.deref {W : Type} (s : Scope W) : W :=
  s.recorder

/-- `impl DerefMut for Scope` (src/scope.rs, lines 151-155): a recorder
operation `f` performed through the mutable reference acts on the wrapped
recorder; the result value is returned and the mutated recorder stays in
the guard. -/
def Scope.deref_mut {W α : Type} (s : Scope W) (f : W → α × W) :
    α × Scope W :=
  ((f s.recorder).1, ⟨s.profiler, (f s.recorder).2⟩)

/-- `impl Deref for OwningScope` (src/scope.rs, lines 164-170). -/
def OwningScope.deref {W : Type} (s : OwningScope W) : W :=
  s.recorder

/-- `impl DerefMut for OwningScope` (src/scope.rs, lines 172-176). -/
def OwningScope.deref_mut {W α : Type} (s : OwningScope W) (f : W → α × W) :
    α × OwningScope W :=
  ((f s.recorder).1, ⟨s.profiler, (f s.recorder).2⟩)

/-- `impl Deref for ManualOwningScope` (src/scope.rs, lines 185-191). -/
def ManualOwningScope.deref {W : Type} (s : ManualOwningScope W) : W :=
  s.recorder

/-- `impl DerefMut for ManualOwningScope` (src/scope.rs, lines 193-197). -/
def ManualOwningScope.deref_mut {W α : Type} (s : ManualOwningScope W)
    (f : W → α × W) : α × ManualOwningScope W :=
  ((f s.recorder).1, ⟨s.profiler, (f s.recorder).2⟩)

/-- Recognises `endScope` events, to count scope-ending calls in a trace. -/
def Event.isEndScope : Event → Bool
  | .endScope _ _ => true
  | _ => false

/-- C1: closing (dropping) a Borrowing or an Owning guard created by `start`
appends exactly one `endScope` call to the trace, directed at the same
profiler id and the same recorder id that the guard's `start` call used for
its `beginScope`; the drop handler issues no other profiler call. -/
theorem c1_drop_ends_exactly_once {W : Type} [ProfilerCommandRecorder W]
    (p : GpuProfiler) (r : W) (d : Nat) (l : String) (tr : Trace) :
    Scope.drop (Scope.start p r d l tr).1 (Scope.start p r d l tr).2
      = tr ++ [Event.beginScope p.id l (rid r) d, Event.endScope p.id (rid r)]
    ∧ OwningScope.drop (OwningScope.start p r d l tr).1 (OwningScope.start p r d l tr).2
      = tr ++ [Event.beginScope p.id l (rid r) d, Event.endScope p.id (rid r),
               Event.releaseRecorder (rid r)] := by
  constructor <;>
    simp [Scope.start, Scope.drop, OwningScope.start, OwningScope.drop,
      GpuProfiler.begin_scope, GpuProfiler.end_scope]

/-- C2: for every guard variant, `start` appends exactly one `beginScope`
call carrying the caller's label unchanged together with the given recorder
and device, appends no `endScope` call, and returns a guard holding that
profiler and that recorder. -/
theorem c2_start_begins_exactly_one_scope {W : Type} [ProfilerCommandRecorder W]
    (p : GpuProfiler) (r : W) (d : Nat) (l : String) (tr : Trace) :
    Scope.start p r d l tr
      = (⟨p, r⟩, tr ++ [Event.beginScope p.id l (rid r) d])
    ∧ OwningScope.start p r d l tr
      = (⟨p, r⟩, tr ++ [Event.beginScope p.id l (rid r) d])
    ∧ ManualOwningScope.start p r d l tr
      = (⟨p, r⟩, tr ++ [Event.beginScope p.id l (rid r) d])
    ∧ ((Scope.start p r d l tr).2.filter Event.isEndScope
        = tr.filter Event.isEndScope) := by
  refine ⟨rfl, rfl, rfl, ?_⟩
  simp [Scope.start, GpuProfiler.begin_scope, Event.isEndScope]

/-- Runs the tail of a nesting experiment: from a live guard `g`, for each
label in order, open a nested guard with `Scope::scope`, recurse into it,
and drop it on the way back out (strict reverse order of opening). -/
def runNestedAux {W : Type} [ProfilerCommandRecorder W] (g : Scope W)
    (device : Nat) (labels : List String) (tr : Trace) : Trace :=
  match labels with
  | [] => tr
  | label :: rest =>
    let c := Scope.scope g device label tr
    Scope.drop c.1 (runNestedAux c.1 device rest c.2)

/-- Runs the full nesting experiment: start a first guard with
`Scope::start`, open the remaining labels as nested guards, and close
everything in strict reverse order of opening. -/
def runNested {W : Type} [ProfilerCommandRecorder W] (p : GpuProfiler)
    (r : W) (device : Nat) (labels : List String) (tr : Trace) : Trace :=
  match labels with
  | [] => tr
  | label :: rest =>
    let g := Scope.start p r device label tr
    Scope.drop g.1 (runNestedAux g.1 device rest g.2)

theorem runNestedAux_eq {W : Type} [ProfilerCommandRecorder W] (g : Scope W)
    (d : Nat) (labels : List String) (tr : Trace) :
    runNestedAux g d labels tr
      = tr ++ labels.map (fun l => Event.beginScope g.profiler.id l (rid g.recorder) d)
          ++ List.replicate labels.length (Event.endScope g.profiler.id (rid g.recorder)) := by
  induction labels generalizing tr with
  | nil => simp [runNestedAux]
  | cons l rest ih =>
    simp [runNestedAux, Scope.scope, Scope.start, Scope.drop,
      GpuProfiler.begin_scope, GpuProfiler.end_scope, ih]
    rw [← List.replicate_succ', List.replicate_succ]

/-- C3: starting guards for a list of N labels in sequence and closing them
in strict reverse order produces exactly the N `beginScope` calls in opening
order followed by exactly N `endScope` calls, all on the same profiler and
recorder (innermost begins last and ends first); in particular labels
"Frame" then "Pass" yield begin Frame, begin Pass, end, end. -/
theorem c3_stack_order {W : Type} [ProfilerCommandRecorder W]
    (p : GpuProfiler) (r : W) (d : Nat) (labels : List String) (tr : Trace) :
    runNested p r d labels tr
      = tr ++ labels.map (fun l => Event.beginScope p.id l (rid r) d)
          ++ List.replicate labels.length (Event.endScope p.id (rid r))
    ∧ runNested p r d ["Frame", "Pass"] tr
      = tr ++ [Event.beginScope p.id "Frame" (rid r) d,
               Event.beginScope p.id "Pass" (rid r) d,
               Event.endScope p.id (rid r),
               Event.endScope p.id (rid r)] := by
  have key : ∀ ls t, runNested p r d ls t
      = t ++ ls.map (fun l => Event.beginScope p.id l (rid r) d)
          ++ List.replicate ls.length (Event.endScope p.id (rid r)) := by
    intro ls t
    cases ls with
    | nil => simp [runNested]
    | cons l rest =>
      simp [runNested, Scope.start, Scope.drop, GpuProfiler.begin_scope,
        GpuProfiler.end_scope, runNestedAux_eq]
      rw [← List.replicate_succ', List.replicate_succ]
  exact ⟨key labels tr, by simpa using key ["Frame", "Pass"] tr⟩

/-- C4: `ManualOwningScope::end_scope` ends the scope against the owned
recorder (one `endScope` call on the guard's profiler and recorder appended
to the trace) and returns the owned recorder together with the profiler
reference; the source takes `mut self` by value, so the guard is consumed
and a second call on the same guard is impossible at the type level. -/
theorem c4_manual_end_scope {W : Type} [ProfilerCommandRecorder W]
    (g : ManualOwningScope W) (tr : Trace) :
    ManualOwningScope.end_scope g tr
      = ((g.recorder, g.profiler),
         tr ++ [Event.endScope g.profiler.id (rid g.recorder)]) := rfl

/-- C5: destroying a `ManualOwningScope` without calling `end_scope` issues
no `endScope` call: the only teardown event is the release of the owned
recorder, and the trace's scope-ending calls are unchanged. -/
theorem c5_manual_drop_no_end {W : Type} [ProfilerCommandRecorder W]
    (g : ManualOwningScope W) (tr : Trace) :
    ManualOwningScope.drop g tr
      = tr ++ [Event.releaseRecorder (rid g.recorder)]
    ∧ (ManualOwningScope.drop g tr).filter Event.isEndScope
      = tr.filter Event.isEndScope := by
  refine ⟨rfl, ?_⟩
  simp [ManualOwningScope.drop, Event.isEndScope]

/-- C6: for every guard variant, `scope` opens a nested guard that is a
borrowing `Scope` (the return type) holding the same profiler and the same
recorder as the outer guard, beginning exactly one scope with the given
label; the outer guard keeps its recorder. -/
theorem c6_nested_guard_borrows {W : Type} [ProfilerCommandRecorder W]
    (p : GpuProfiler) (r : W) (d : Nat) (l : String) (tr : Trace) :
    Scope.scope ⟨p, r⟩ d l tr
      = ((⟨p, r⟩ : Scope W), tr ++ [Event.beginScope p.id l (rid r) d])
    ∧ OwningScope.scope ⟨p, r⟩ d l tr
      = ((⟨p, r⟩ : Scope W), tr ++ [Event.beginScope p.id l (rid r) d])
    ∧ ManualOwningScope.scope ⟨p, r⟩ d l tr
      = ((⟨p, r⟩ : Scope W), tr ++ [Event.beginScope p.id l (rid r) d]) :=
  ⟨rfl, rfl, rfl⟩

@[simp]
theorem rid_commandEncoder (n : Nat) : rid (⟨n⟩ : CommandEncoder) = n := rfl

@[simp]
theorem rid_renderPass (n : Nat) : rid (⟨n⟩ : RenderPass) = n := rfl

@[simp]
theorem rid_computePass (n : Nat) : rid (⟨n⟩ : ComputePass) = n := rfl

/-- C7: for every guard variant wrapping a command encoder,
`scoped_render_pass` / `scoped_compute_pass` first ask the encoder to begin
the pass the descriptor describes, then wrap that pass in a fresh
`OwningScope` with the same profiler and the given label (one `beginScope`
on the new pass); dropping the returned pass guard appends exactly one
`endScope`, targeting the pass, and never an `endScope` for the encoder. -/
theorem c7_scoped_pass (p : GpuProfiler) (e : CommandEncoder) (d : Nat)
    (l : String) (rdesc : RenderPassDescriptor) (cdesc : ComputePassDescriptor)
    (tr : Trace) (hr : rdesc.passId ≠ e.id) (hc : cdesc.passId ≠ e.id) :
    Scope.scoped_render_pass ⟨p, e⟩ d l rdesc tr
      = (⟨p, ⟨rdesc.passId⟩⟩,
         tr ++ [Event.beginRenderPass e.id rdesc.passId,
                Event.beginScope p.id l rdesc.passId d])
    ∧ OwningScope.scoped_render_pass ⟨p, e⟩ d l rdesc tr
      = (⟨p, ⟨rdesc.passId⟩⟩,
         tr ++ [Event.beginRenderPass e.id rdesc.passId,
                Event.beginScope p.id l rdesc.passId d])
    ∧ ManualOwningScope.scoped_render_pass ⟨p, e⟩ d l rdesc tr
      = (⟨p, ⟨rdesc.passId⟩⟩,
         tr ++ [Event.beginRenderPass e.id rdesc.passId,
                Event.beginScope p.id l rdesc.passId d])
    ∧ Scope.scoped_compute_pass ⟨p, e⟩ d l cdesc tr
      = (⟨p, ⟨cdesc.passId⟩⟩,
         tr ++ [Event.beginComputePass e.id cdesc.passId,
                Event.beginScope p.id l cdesc.passId d])
    ∧ OwningScope.scoped_compute_pass ⟨p, e⟩ d l cdesc tr
      = (⟨p, ⟨cdesc.passId⟩⟩,
         tr ++ [Event.beginComputePass e.id cdesc.passId,
                Event.beginScope p.id l cdesc.passId d])
    ∧ ManualOwningScope.scoped_compute_pass ⟨p, e⟩ d l cdesc tr
      = (⟨p, ⟨cdesc.passId⟩⟩,
         tr ++ [Event.beginComputePass e.id cdesc.passId,
                Event.beginScope p.id l cdesc.passId d])
    ∧ OwningScope.drop (Scope.scoped_render_pass ⟨p, e⟩ d l rdesc tr).1 []
      = [Event.endScope p.id rdesc.passId, Event.releaseRecorder rdesc.passId]
    ∧ OwningScope.drop (Scope.scoped_compute_pass ⟨p, e⟩ d l cdesc tr).1 []
      = [Event.endScope p.id cdesc.passId, Event.releaseRecorder cdesc.passId]
    ∧ Event.endScope p.id e.id
        ∉ OwningScope.drop (Scope.scoped_render_pass ⟨p, e⟩ d l rdesc tr).1 []
    ∧ Event.endScope p.id e.id
        ∉ OwningScope.drop (Scope.scoped_compute_pass ⟨p, e⟩ d l cdesc tr).1 [] := by
  refine ⟨?_, ?_, ?_, ?_, ?_, ?_, ?_, ?_, ?_, ?_⟩
  all_goals
    simp [Scope.scoped_render_pass, Scope.scoped_compute_pass,
      OwningScope.scoped_render_pass, OwningScope.scoped_compute_pass,
      ManualOwningScope.scoped_render_pass, ManualOwningScope.scoped_compute_pass,
      OwningScope.start, OwningScope.drop, CommandEncoder.begin_render_pass,
      CommandEncoder.begin_compute_pass, GpuProfiler.begin_scope,
      GpuProfiler.end_scope]
  all_goals omega

/-- Witness for C7 at concrete input: profiler 0, encoder 1, render pass 2,
compute pass 3, both hypotheses discharged by computation. -/
theorem c7_scoped_pass_witness :
    (2 : Nat) ≠ 1 ∧ (3 : Nat) ≠ 1
    ∧ Event.endScope 0 1
        ∉ OwningScope.drop
            (Scope.scoped_render_pass
              (⟨⟨0⟩, ⟨1⟩⟩ : Scope CommandEncoder) 0 "Draw" ⟨2⟩ []).1 []
    ∧ Event.endScope 0 1
        ∉ OwningScope.drop
            (Scope.scoped_compute_pass
              (⟨⟨0⟩, ⟨1⟩⟩ : Scope CommandEncoder) 0 "Draw" ⟨3⟩ []).1 [] :=
  ⟨by decide, by decide,
   (c7_scoped_pass ⟨0⟩ ⟨1⟩ 0 "Draw" ⟨2⟩ ⟨3⟩ [] (by decide)
     (by decide)).2.2.2.2.2.2.2.2.1,
   (c7_scoped_pass ⟨0⟩ ⟨1⟩ 0 "Draw" ⟨2⟩ ⟨3⟩ [] (by decide)
     (by decide)).2.2.2.2.2.2.2.2.2⟩

/-- Scenario trace for C8: start an `OwningScope` "outer-label" over encoder
1 under profiler 0, spawn a render pass scope "Draw" for pass 2, drop the
pass guard, then drop the encoder guard. -/
def scenarioDrawTrace : Trace :=
  let s := OwningScope.start (GpuProfiler.mk 0) (CommandEncoder.mk 1) 0 "outer-label" ([] : Trace)
  let pass := OwningScope.scoped_render_pass s.1 0 "Draw" ⟨2⟩ s.2
  OwningScope.drop s.1 (OwningScope.drop pass.1 pass.2)

/-- C8: the drop handler of an `OwningScope` first issues the `endScope`
call and only afterwards releases the owned recorder; in the
`scoped_render_pass` scenario, the spawned render pass is released
(finalised) strictly before the enclosing encoder guard's own `endScope`. -/
theorem c8_end_before_release {W : Type} [ProfilerCommandRecorder W]
    (g : OwningScope W) (tr : Trace) :
    OwningScope.drop g tr
      = tr ++ [Event.endScope g.profiler.id (rid g.recorder),
               Event.releaseRecorder (rid g.recorder)]
    ∧ scenarioDrawTrace
      = [Event.beginScope 0 "outer-label" 1 0,
         Event.beginRenderPass 1 2,
         Event.beginScope 0 "Draw" 2 0,
         Event.endScope 0 2,
         Event.releaseRecorder 2,
         Event.endScope 0 1,
         Event.releaseRecorder 1] := by
  constructor
  · simp [OwningScope.drop, GpuProfiler.end_scope]
  · rfl

/-- C9: for every guard variant, dereferencing yields exactly the wrapped
recorder, and a recorder operation applied through the mutable dereference
returns the same value and the same mutated recorder as applying it to the
unwrapped recorder, leaving the guard's profiler untouched. -/
theorem c9_transparent_access {W α : Type} (p : GpuProfiler) (r : W)
    (f : W → α × W) :
    Scope.deref ⟨p, r⟩ = r
    ∧ OwningScope.deref ⟨p, r⟩ = r
    ∧ ManualOwningScope.deref ⟨p, r⟩ = r
    ∧ Scope.deref_mut ⟨p, r⟩ f = ((f r).1, ⟨p, (f r).2⟩)
    ∧ OwningScope.deref_mut ⟨p, r⟩ f = ((f r).1, ⟨p, (f r).2⟩)
    ∧ ManualOwningScope.deref_mut ⟨p, r⟩ f = ((f r).1, ⟨p, (f r).2⟩) :=
  ⟨rfl, rfl, rfl, rfl, rfl, rfl⟩

/-- C10: a nested guard obtained from `ManualOwningScope::scope` is a
borrowing `Scope` over the parent's profiler and recorder, and dropping it
automatically appends exactly one `endScope` call for that pair, even
though the parent itself only ends on an explicit `end_scope` call. -/
theorem c10_manual_child_auto_ends {W : Type} [ProfilerCommandRecorder W]
    (g : ManualOwningScope W) (d : Nat) (l : String) (tr : Trace) :
    (ManualOwningScope.scope g d l tr).1
      = (⟨g.profiler, g.recorder⟩ : Scope W)
    ∧ Scope.drop (ManualOwningScope.scope g d l tr).1
        (ManualOwningScope.scope g d l tr).2
      = tr ++ [Event.beginScope g.profiler.id l (rid g.recorder) d,
               Event.endScope g.profiler.id (rid g.recorder)] := by
  refine ⟨rfl, ?_⟩
  simp [ManualOwningScope.scope, Scope.start, Scope.drop,
    GpuProfiler.begin_scope, GpuProfiler.end_scope]

end WgpuProfiler
